import Mathlib

/-!
# POS payment simulation (`src/pos.cpp`): shallow embedding

Modelling conventions.

* A C++ `std::string` is a Lean `String`, one `Char` per C++ `char`;
  `isdigit` is `Char.isDigit` (the characters `0`..`9`), `length()` is the
  number of characters.
* A `double` amount is an exact rational (`ℚ`); rounding is not modelled.
* `int` payment ids are unbounded integers (signed overflow of the id counter
  is undefined behaviour in C++ and needs more than two thousand million payments).
* `rand()` is an explicit infinite sequence of draws `Nat → Nat` carried in
  the processor state; position `0` is the next value `rand()` returns.
* `getCurrentTime()` is the argument `now` of every processing call.
* A `PaymentDetails*` is an `Option PaymentDetails` (`none` is `nullptr`);
  `try`/`throw`/`catch` is made explicit, each `throw` becoming the body of
  the `catch` handler run on the state reached at the `throw`.
* Console and file output are not modelled.
-/

namespace POS

/-- Payment details structure (`struct PaymentDetails`). -/
structure PaymentDetails where
  paymentId : Int
  paymentMethod : String
  amount : ℚ
  transactionTime : String
  status : String
  authorizationCode : String
deriving DecidableEq

/-- State of `PaymentProcessor`: the static id counter, the owned current
record and the state of the C random number generator. -/
structure PaymentProcessor where
  nextPaymentId : Int
  currentPayment : Option PaymentDetails
  rng : Nat → Nat

/-- The processor right after construction, with the draws `rng` ahead of it:
`nextPaymentId = 1001`, `currentPayment = nullptr`. -/
def PaymentProcessor.new (rng : Nat → Nat) : PaymentProcessor :=
  { nextPaymentId := 1001, currentPayment := none, rng := rng }

/-- One call of `rand()`: the next draw and the advanced generator. -/
def rand (p : PaymentProcessor) : Nat × PaymentProcessor :=
  (p.rng 0, { p with rng := fun n => p.rng (n + 1) })

/-- Source `getCurrentPayment()`. -/
def getCurrentPayment (p : PaymentProcessor) : Option PaymentDetails :=
  p.currentPayment

/-- The table `alphanum` of `generateAuthorizationCode`. -/
def alphanum : List Char := "0123456789ABCDEFGHIJKLMNOPQRSTUVWXYZ".toList

/-- The loop of `generateAuthorizationCode`: `k` more rounds of
`code += alphanum[rand() % 36]`. -/
def generateAuthorizationCodeLoop : Nat → String → PaymentProcessor → String × PaymentProcessor
  | 0, code, p => (code, p)
  | k + 1, code, p =>
    let (d, p1) := rand p
    generateAuthorizationCodeLoop k (code.push (alphanum.getD (d % 36) (Char.ofNat 0))) p1

/-- Source `PaymentProcessor::generateAuthorizationCode`. -/
def generateAuthorizationCode (p : PaymentProcessor) : String × PaymentProcessor :=
  generateAuthorizationCodeLoop 6 "AUTH-" p

/-- Source `PaymentProcessor::calculateChange`. -/
def calculateChange (amount tendered : ℚ) : ℚ :=
  tendered - amount

/-- The first loop of `validateCard`: keep the digit characters. -/
def cleanCard (cardNumber : String) : String :=
  cardNumber.toList.foldl (fun acc c => if c.isDigit then acc.push c else acc) ""

/-- The last loop of `validateCard`: `false` at the first non-digit of the CVV. -/
def cvvLoop : List Char → Bool
  | [] => true
  | c :: cs => if !c.isDigit then false else cvvLoop cs

/-- Source `PaymentProcessor::validateCard`. -/
def validateCard (cardNumber expiry cvv : String) : Bool :=
  if (cleanCard cardNumber).length ≠ 16 then false
  else if expiry.length ≠ 5 ∨ expiry.toList.get? 2 ≠ some '/' then false
  else if cvv.length < 3 ∨ cvv.length > 4 then false
  else cvvLoop cvv.toList

/-- The `catch` handler of `processCardPayment` and `processMobilePayment`:
`if (currentPayment != nullptr) currentPayment->status = "Failed"; return false;`. -/
def catchMarkFailed (p : PaymentProcessor) : Bool × PaymentProcessor :=
  (false, { p with currentPayment := p.currentPayment.map fun r => { r with status := "Failed" } })

/-- Source `PaymentProcessor::processCashPayment`. Its `catch` handler only returns `false`. -/
def processCashPayment (p : PaymentProcessor) (amount tendered : ℚ) (now : String) :
    Bool × PaymentProcessor :=
  if amount ≤ 0 then (false, p)
  else if tendered < amount then (false, p)
  else
    let id := p.nextPaymentId
    (true, { p with
      nextPaymentId := p.nextPaymentId + 1
      currentPayment := some
        { paymentId := id, paymentMethod := "Cash", amount := amount, transactionTime := now,
          status := "Completed", authorizationCode := "CASH-" ++ toString id } })

/-- Source `PaymentProcessor::processCardPayment`. -/
def processCardPayment (p : PaymentProcessor) (amount : ℚ)
    (cardNumber expiry cvv cardType now : String) : Bool × PaymentProcessor :=
  if amount ≤ 0 then catchMarkFailed p
  else if !validateCard cardNumber expiry cvv then catchMarkFailed p
  else
    let r : PaymentDetails :=
      { paymentId := p.nextPaymentId, paymentMethod := cardType, amount := amount,
        transactionTime := now, status := "", authorizationCode := "" }
    let (authResult, p1) := rand { p with nextPaymentId := p.nextPaymentId + 1 }
    if authResult % 100 < 90 then
      let (code, p2) := generateAuthorizationCode p1
      (true, { p2 with
        currentPayment := some { r with status := "Completed", authorizationCode := code } })
    else
      catchMarkFailed { p1 with
        currentPayment := some { r with status := "Failed", authorizationCode := "DECLINED" } }

/-- Source `PaymentProcessor::processMobilePayment`. -/
def processMobilePayment (p : PaymentProcessor) (amount : ℚ) (mobileProvider now : String) :
    Bool × PaymentProcessor :=
  if amount ≤ 0 then catchMarkFailed p
  else
    let r : PaymentDetails :=
      { paymentId := p.nextPaymentId, paymentMethod := "Mobile (" ++ mobileProvider ++ ")",
        amount := amount, transactionTime := now, status := "", authorizationCode := "" }
    let (authResult, p1) := rand { p with nextPaymentId := p.nextPaymentId + 1 }
    if authResult % 100 < 95 then
      let (code, p2) := generateAuthorizationCode p1
      (true, { p2 with
        currentPayment := some { r with status := "Completed", authorizationCode := code } })
    else
      catchMarkFailed { p1 with
        currentPayment := some { r with status := "Failed", authorizationCode := "TIMEOUT" } }

/-- State of `TransactionManager`. `dailyTransactions` is the heap array of
`dailyCapacity` pointers, a slot being `none` until it is first written;
`paymentMethodStats` is the `map<string, double>` read through `operator[]`
(an absent key reads as `0`). -/
structure TransactionManager where
  transactionHistory : List PaymentDetails
  dailyTransactions : List (Option PaymentDetails)
  dailyCount : Nat
  dailyCapacity : Nat
  paymentMethodStats : String → ℚ
  supportedMethods : List String

/-- Source `TransactionManager::TransactionManager`. -/
def TransactionManager.new : TransactionManager :=
  { transactionHistory := []
    dailyTransactions := List.replicate 100 none
    dailyCount := 0
    dailyCapacity := 100
    paymentMethodStats := fun _ => 0
    supportedMethods := ["Cash", "Credit Card", "Debit Card", "Mobile Payment"] }

/-- Source `TransactionManager::updatePaymentStats`: `paymentMethodStats[method] += amount`. -/
def updatePaymentStats (tm : TransactionManager) (method : String) (amount : ℚ) :
    TransactionManager :=
  { tm with paymentMethodStats := fun m =>
      if m = method then tm.paymentMethodStats m + amount else tm.paymentMethodStats m }

/-- Source `TransactionManager::addTransaction`. -/
def addTransaction (tm : TransactionManager) (transaction : Option PaymentDetails) :
    TransactionManager :=
  match transaction with
  | none => tm
  | some t =>
    let historyCopy : PaymentDetails := t
    let tm1 := { tm with transactionHistory := tm.transactionHistory ++ [historyCopy] }
    let tm2 :=
      if tm1.dailyCount < tm1.dailyCapacity then
        { tm1 with
          dailyTransactions := tm1.dailyTransactions.set tm1.dailyCount (some historyCopy)
          dailyCount := tm1.dailyCount + 1 }
      else tm1
    updatePaymentStats tm2 t.paymentMethod t.amount

/-- The loop of `findTransactionById` from index `i` with `k` rounds left. The
outer `none` is undefined behaviour: the read of a slot that was never written
or lies outside the array. -/
def findTransactionByIdLoop (arr : List (Option PaymentDetails)) (paymentId : Int) :
    Nat → Nat → Option (Option PaymentDetails)
  | 0, _ => some none
  | k + 1, i =>
    match arr.get? i with
    | some (some transaction) =>
      if transaction.paymentId = paymentId then some (some transaction)
      else findTransactionByIdLoop arr paymentId k (i + 1)
    | _ => none

/-- Source `TransactionManager::findTransactionById`: `some none` is `nullptr`. -/
def findTransactionById (tm : TransactionManager) (paymentId : Int) :
    Option (Option PaymentDetails) :=
  findTransactionByIdLoop tm.dailyTransactions paymentId tm.dailyCount 0

/-- The figures `generateDailyReport` prints: total transactions, successful
transactions, total revenue and success rate (in percent). -/
structure DailyReport where
  totalCount : Nat
  successCount : Nat
  totalRevenue : ℚ
  successRate : ℚ
deriving DecidableEq

/-- The loop of `generateDailyReport` from index `i` with `k` rounds left,
carrying `totalRevenue` and `successCount`. The result `none` is undefined
behaviour: the read of a slot that was never written or lies outside the array. -/
def generateDailyReportLoop (arr : List (Option PaymentDetails)) :
    Nat → Nat → ℚ → Nat → Option (ℚ × Nat)
  | 0, _, totalRevenue, successCount => some (totalRevenue, successCount)
  | k + 1, i, totalRevenue, successCount =>
    match arr.get? i with
    | some (some transaction) =>
      if transaction.status = "Completed" then
        generateDailyReportLoop arr k (i + 1) (totalRevenue + transaction.amount) (successCount + 1)
      else generateDailyReportLoop arr k (i + 1) totalRevenue successCount
    | _ => none

/-- Source `TransactionManager::generateDailyReport`, returning what it prints. -/
def generateDailyReport (tm : TransactionManager) : Option DailyReport :=
  match generateDailyReportLoop tm.dailyTransactions tm.dailyCount 0 0 0 with
  | none => none
  | some (totalRevenue, successCount) =>
    some
      { totalCount := tm.dailyCount
        successCount := successCount
        totalRevenue := totalRevenue
        successRate := if tm.dailyCount > 0 then (successCount : ℚ) * 100 / (tm.dailyCount : ℚ)
                       else 0 }

/-- The payment choices `1`..`4` of the menu of `runPOSSystem` with what is
read from the console for each. -/
inductive PaymentInput where
  | cash (amount tendered : ℚ)
  | creditCard (amount : ℚ) (cardNumber expiry cvv : String)
  | debitCard (amount : ℚ) (cardNumber expiry cvv : String)
  | mobile (amount : ℚ) (providerChoice : Int)

/-- The locals `processor` and `manager` of `runPOSSystem`. -/
structure POSState where
  processor : PaymentProcessor
  manager : TransactionManager

/-- The inner `switch (providerChoice)` of menu choice `4`. -/
def providerName (providerChoice : Int) : String :=
  if providerChoice = 1 then "PayPal"
  else if providerChoice = 2 then "Apple Pay"
  else if providerChoice = 3 then "Google Pay"
  else "Unknown"

/-- One payment round of the loop of `runPOSSystem`, at clock reading `now`. -/
def posStep (s : POSState) (now : String) : PaymentInput → POSState
  | .cash amount tendered =>
    let (ok, p) := processCashPayment s.processor amount tendered now
    if ok then { processor := p, manager := addTransaction s.manager (getCurrentPayment p) }
    else { processor := p, manager := s.manager }
  | .creditCard amount cardNumber expiry cvv =>
    let (_, p) := processCardPayment s.processor amount cardNumber expiry cvv "Credit Card" now
    { processor := p, manager := addTransaction s.manager (getCurrentPayment p) }
  | .debitCard amount cardNumber expiry cvv =>
    let (_, p) := processCardPayment s.processor amount cardNumber expiry cvv "Debit Card" now
    { processor := p, manager := addTransaction s.manager (getCurrentPayment p) }
  | .mobile amount providerChoice =>
    let (_, p) := processMobilePayment s.processor amount (providerName providerChoice) now
    { processor := p, manager := addTransaction s.manager (getCurrentPayment p) }

/-- The payment rounds of `runPOSSystem` from the freshly constructed processor
and manager, one pair of console input and clock reading per round. -/
def runPOSSystem (rng : Nat → Nat) (inputs : List (PaymentInput × String)) : POSState :=
  inputs.foldl (fun s i => posStep s i.2 i.1)
    { processor := PaymentProcessor.new rng, manager := TransactionManager.new }

/-- A direct call of one of the three processing methods with its arguments. -/
inductive PaymentCall where
  | cash (amount tendered : ℚ)
  | card (amount : ℚ) (cardNumber expiry cvv cardType : String)
  | mobile (amount : ℚ) (mobileProvider : String)

/-- Run the processing method a `PaymentCall` names, at clock reading `now`. -/
def PaymentCall.run (p : PaymentProcessor) (now : String) : PaymentCall → Bool × PaymentProcessor
  | .cash amount tendered => processCashPayment p amount tendered now
  | .card amount cardNumber expiry cvv cardType =>
    processCardPayment p amount cardNumber expiry cvv cardType now
  | .mobile amount mobileProvider => processMobilePayment p amount mobileProvider now

/-- The input of the call fails validation, in the words of the specification:
the amount is not positive, the cash tendered is below the amount, or the card
fields are rejected by `validateCard`. -/
def PaymentCall.failsValidation : PaymentCall → Prop
  | .cash amount tendered => amount ≤ 0 ∨ tendered < amount
  | .card amount cardNumber expiry cvv _ => amount ≤ 0 ∨ validateCard cardNumber expiry cvv = false
  | .mobile amount _ => amount ≤ 0

/-- A record with its status blanked: two records agree on every field but
the status exactly when their images agree. -/
def withoutStatus (r : PaymentDetails) : PaymentDetails :=
  { r with status := "" }

/-- The processor state the counterexamples start from: a fresh processor whose
generator only ever draws `0`. -/
def freshProcessor : PaymentProcessor :=
  PaymentProcessor.new fun _ => 0

/-- The ledger after the records `rs` were passed to `addTransaction`, one
after the other, starting from the constructor's state. -/
def appendAll (rs : List PaymentDetails) : TransactionManager :=
  rs.foldl (fun tm r => addTransaction tm (some r)) TransactionManager.new

/-- The per-method figure in the words of the specification: the sum of the
amounts of the records of method `m` whose status is `Completed`. -/
def completedAmount (rs : List PaymentDetails) (m : String) : ℚ :=
  ((rs.filter fun r => r.paymentMethod = m ∧ r.status = "Completed").map (·.amount)).sum

/-- The sum of the amounts of all the records of method `m`, whatever their status. -/
def recordedAmount (rs : List PaymentDetails) (m : String) : ℚ :=
  ((rs.filter fun r => r.paymentMethod = m).map (·.amount)).sum

/-- The expiry form `MM/YY` in the words of the specification: exactly five
characters, two digits, a slash, two digits. -/
def isMMYY (expiry : String) : Bool :=
  match expiry.toList with
  | [a, b, c, d, e] => a.isDigit && b.isDigit && c == '/' && d.isDigit && e.isDigit
  | _ => false

/-- The number of digit characters of a card number. -/
def digitCount (cardNumber : String) : Nat :=
  (cardNumber.toList.filter Char.isDigit).length

/-- The approval code format of the specification, `AUTH-[0-9A-Z]{6}`: eleven
characters, the first five being `AUTH-`, the other six digits or capitals. -/
def isAuthCode (code : String) : Bool :=
  code.length == 11 && code.toList.take 5 == "AUTH-".toList &&
    (code.toList.drop 5).all fun c => c.isDigit || c.isUpper

/-- The 101 cash records with the ids `1001`..`1101`. -/
def hundredAndOneRecords : List PaymentDetails :=
  (List.range 101).map fun i => ⟨1001 + i, "Cash", 1, "t", "Completed", "CASH"⟩

/-- The number of records whose status is `Completed`. -/
def completedCount (rs : List PaymentDetails) : Nat :=
  (rs.filter fun r => r.status = "Completed").length

/-- The sum of the amounts of the records whose status is `Completed`. -/
def completedRevenue (rs : List PaymentDetails) : ℚ :=
  ((rs.filter fun r => r.status = "Completed").map (·.amount)).sum

/-- The ledger after the arguments `ts`, null pointers among them, were passed
to `addTransaction` one after the other, starting from the constructor's state. -/
def addAll (ts : List (Option PaymentDetails)) : TransactionManager :=
  ts.foldl addTransaction TransactionManager.new

/-! ## Cash payments -/

/-- C1: for every amount above zero and every tendered sum not below it,
`processCashPayment` returns `true` from any processor state (any id counter,
any earlier record, any generator state) and leaves a current record that is
`Completed`, paid by `Cash`, carries the input amount and whose authorization
code is `CASH-` followed by the decimal rendering of its own id; and
`calculateChange` is `tendered - amount`, which is not negative. -/
theorem processCashPayment_completed (p : PaymentProcessor) (amount tendered : ℚ) (now : String)
    (hamount : 0 < amount) (htendered : amount ≤ tendered) :
    (processCashPayment p amount tendered now).1 = true ∧
    (∃ r, getCurrentPayment (processCashPayment p amount tendered now).2 = some r ∧
      r.status = "Completed" ∧ r.paymentMethod = "Cash" ∧ r.amount = amount ∧
      r.authorizationCode = "CASH-" ++ toString r.paymentId) ∧
    calculateChange amount tendered = tendered - amount ∧
    0 ≤ calculateChange amount tendered := by
  have h1 : ¬ amount ≤ 0 := not_le.mpr hamount
  have h2 : ¬ tendered < amount := not_lt.mpr htendered
  refine ⟨?_, ?_, rfl, ?_⟩
  · simp [processCashPayment, h1, h2]
  · simp [processCashPayment, h1, h2, getCurrentPayment]
  · simpa [calculateChange] using htendered

/-- Scenario A of the specification: amount 9.50 paid with 10.00 in cash. -/
theorem processCashPayment_completed_witness :
    (0 : ℚ) < 19 / 2 ∧ (19 / 2 : ℚ) ≤ 10 ∧
    (processCashPayment (PaymentProcessor.new fun _ => 0) (19 / 2) 10 "t").1 = true ∧
    calculateChange (19 / 2) 10 = 1 / 2 := by
  have h := processCashPayment_completed (PaymentProcessor.new fun _ => 0) (19 / 2) 10 "t"
    (by norm_num) (by norm_num)
  refine ⟨by norm_num, by norm_num, h.1, ?_⟩
  rw [h.2.2.1]; norm_num

/-! ## Input that fails validation -/

/-- C2, as stated, fails: a cash call with amount `0` fails validation, yet it
returns `false` without creating any record and without advancing the id
counter, so no `Failed` record with code `VALIDATION_ERROR` exists afterwards. -/
theorem failed_validation_no_record_counterexample :
    PaymentCall.failsValidation (.cash 0 0) ∧
    (PaymentCall.run freshProcessor "t" (.cash 0 0)).1 = false ∧
    (PaymentCall.run freshProcessor "t" (.cash 0 0)).2.currentPayment = none ∧
    (PaymentCall.run freshProcessor "t" (.cash 0 0)).2.nextPaymentId = freshProcessor.nextPaymentId ∧
    ¬ ∃ r, (PaymentCall.run freshProcessor "t" (.cash 0 0)).2.currentPayment = some r ∧
      r.status = "Failed" ∧ r.authorizationCode = "VALIDATION_ERROR" := by
  refine ⟨Or.inl le_rfl, by decide, by decide, by decide, ?_⟩
  rintro ⟨r, hr, -⟩
  have hnone : (PaymentCall.run freshProcessor "t" (.cash 0 0)).2.currentPayment = none := by
    decide
  rw [hnone] at hr
  cases hr

/-- C2, amended: a call whose input fails validation returns `false` and creates
no record: the id counter and the generator are left as they were, and the
current record is, apart from its status, the one that was current before the
call (none when there was none). -/
theorem failed_validation_creates_nothing (c : PaymentCall) (p : PaymentProcessor) (now : String)
    (h : c.failsValidation) :
    (c.run p now).1 = false ∧
    (c.run p now).2.nextPaymentId = p.nextPaymentId ∧
    (c.run p now).2.rng = p.rng ∧
    (c.run p now).2.currentPayment.map withoutStatus = p.currentPayment.map withoutStatus := by
  have hmap : (p.currentPayment.map fun r => { r with status := "Failed" }).map withoutStatus
      = p.currentPayment.map withoutStatus := by
    cases p.currentPayment <;> simp [withoutStatus]
  cases c with
  | cash amount tendered =>
    rcases h with h | h
    · simp [PaymentCall.run, processCashPayment, h]
    · by_cases h0 : amount ≤ 0 <;> simp [PaymentCall.run, processCashPayment, h, h0]
  | card amount cardNumber expiry cvv cardType =>
    rcases h with h | h
    · simp only [PaymentCall.run, processCardPayment, h, if_true, catchMarkFailed]
      exact ⟨trivial, trivial, trivial, hmap⟩
    · by_cases h0 : amount ≤ 0
      · simp only [PaymentCall.run, processCardPayment, h0, if_true, catchMarkFailed]
        exact ⟨trivial, trivial, trivial, hmap⟩
      · simp only [PaymentCall.run, processCardPayment, h0, h, if_false, Bool.not_false, if_true,
          catchMarkFailed]
        exact ⟨trivial, trivial, trivial, hmap⟩
  | mobile amount mobileProvider =>
    have h0 : amount ≤ 0 := h
    simp only [PaymentCall.run, processMobilePayment, h0, if_true, catchMarkFailed]
    exact ⟨trivial, trivial, trivial, hmap⟩

/-- Scenario C of the specification (card number `123`) at the fresh processor. -/
theorem failed_validation_creates_nothing_witness :
    PaymentCall.failsValidation (.card 10 "123" "12/26" "123" "Credit Card") ∧
    (PaymentCall.run freshProcessor "t" (.card 10 "123" "12/26" "123" "Credit Card")).1 = false ∧
    (PaymentCall.run freshProcessor "t"
      (.card 10 "123" "12/26" "123" "Credit Card")).2.nextPaymentId = 1001 :=
  have hv : PaymentCall.failsValidation (.card 10 "123" "12/26" "123" "Credit Card") :=
    Or.inr (by decide)
  have h := failed_validation_creates_nothing (.card 10 "123" "12/26" "123" "Credit Card")
    freshProcessor "t" hv
  ⟨hv, h.1, h.2.1⟩

/-! ## Records of earlier calls -/

/-- C3 fails on the code: after a completed cash payment (record `1001`), a card
call rejected by validation (card number `123`) creates no record and leaves
record `1001` current with its status turned into `Failed`; the same happens
with a mobile call whose amount is `0`. -/
theorem failed_validation_mutates_earlier_record :
    (processCashPayment freshProcessor 10 10 "t1").2.currentPayment
      = some ⟨1001, "Cash", 10, "t1", "Completed", "CASH-1001"⟩ ∧
    (processCardPayment (processCashPayment freshProcessor 10 10 "t1").2
        10 "123" "12/26" "123" "Credit Card" "t2").2.currentPayment
      = some ⟨1001, "Cash", 10, "t1", "Failed", "CASH-1001"⟩ ∧
    (processMobilePayment (processCashPayment freshProcessor 10 10 "t1").2
        0 "PayPal" "t2").2.currentPayment
      = some ⟨1001, "Cash", 10, "t1", "Failed", "CASH-1001"⟩ := by
  refine ⟨by decide, by decide, by decide⟩

/-! ## Ids in the ledger -/

/-- C4 fails on the code: a completed cash payment followed by a credit card
attempt rejected by validation puts record `1001` into the ledger twice, first
as `Completed` and then as `Failed`. -/
theorem ledger_ids_repeat_after_failed_validation :
    (runPOSSystem (fun _ => 0)
        [(.cash 10 10, "t1"), (.creditCard 10 "123" "12/26" "123", "t2")]).manager.transactionHistory
      = [⟨1001, "Cash", 10, "t1", "Completed", "CASH-1001"⟩,
         ⟨1001, "Cash", 10, "t1", "Failed", "CASH-1001"⟩] := by
  decide

/-! ## Payment method statistics -/

theorem addTransaction_stats (tm : TransactionManager) (r : PaymentDetails) (m : String) :
    (addTransaction tm (some r)).paymentMethodStats m
      = tm.paymentMethodStats m + if r.paymentMethod = m then r.amount else 0 := by
  by_cases hm : r.paymentMethod = m
  · subst hm
    simp only [addTransaction, updatePaymentStats, if_true]
    split <;> rfl
  · have hm2 : ¬ m = r.paymentMethod := fun h => hm h.symm
    simp only [addTransaction, updatePaymentStats, hm, hm2, if_false, add_zero]
    split <;> rfl

theorem foldl_addTransaction_stats (rs : List PaymentDetails) (tm : TransactionManager)
    (m : String) :
    (rs.foldl (fun tm r => addTransaction tm (some r)) tm).paymentMethodStats m
      = tm.paymentMethodStats m + recordedAmount rs m := by
  induction rs generalizing tm with
  | nil => simp [recordedAmount]
  | cons r rs ih =>
    rw [List.foldl_cons, ih, addTransaction_stats]
    by_cases hm : r.paymentMethod = m
    · simp [recordedAmount, hm, add_assoc]
    · simp [recordedAmount, hm]

/-- C5, as stated, fails: after one `Failed` credit card record of amount `5`
is appended, the statistic of `Credit Card` is `5`, while the completed amount
of that method is `0`. -/
theorem stats_count_failed_records_counterexample :
    (appendAll [⟨1001, "Credit Card", 5, "t", "Failed", "DECLINED"⟩]).paymentMethodStats
      "Credit Card" = 5 ∧
    completedAmount [⟨1001, "Credit Card", 5, "t", "Failed", "DECLINED"⟩] "Credit Card" = 0 := by
  constructor
  · rw [appendAll, foldl_addTransaction_stats]
    simp [recordedAmount, TransactionManager.new]
  · simp [completedAmount]

/-- C5, amended: for every method name and every sequence of records passed to
`addTransaction`, the statistic of the method is the sum of the amounts of all
the appended records of that method, whatever their status. -/
theorem stats_eq_recordedAmount (rs : List PaymentDetails) (m : String) :
    (appendAll rs).paymentMethodStats m = recordedAmount rs m := by
  rw [appendAll, foldl_addTransaction_stats]
  simp [TransactionManager.new]

/-! ## Card validation -/

/-- C6 fails on the code: the expiry `ab/cd` is not of the form `MM/YY`, yet
`validateCard` accepts it, and `processCardPayment` then creates a `Completed`
record (the first draw being `0`). -/
theorem validateCard_accepts_non_digit_expiry :
    isMMYY "ab/cd" = false ∧
    validateCard "4111111111111111" "ab/cd" "123" = true ∧
    (processCardPayment freshProcessor 10 "4111111111111111" "ab/cd" "123" "Credit Card"
        "t").2.currentPayment
      = some ⟨1001, "Credit Card", 10, "t", "Completed", "AUTH-000000"⟩ := by
  refine ⟨by decide, by decide, by decide⟩

theorem cleanCard_foldl_length (cs : List Char) (acc : String) :
    (cs.foldl (fun acc c => if c.isDigit then acc.push c else acc) acc).length
      = acc.length + (cs.filter Char.isDigit).length := by
  induction cs generalizing acc with
  | nil => simp
  | cons c cs ih =>
    rw [List.foldl_cons, ih]
    by_cases hc : c.isDigit = true
    · simp [hc, String.length_push, add_assoc, add_comm]
    · simp [hc]

theorem cleanCard_length (cardNumber : String) :
    (cleanCard cardNumber).length = digitCount cardNumber := by
  simp [cleanCard, digitCount, cleanCard_foldl_length]

theorem cvvLoop_of_digits (cs : List Char) (h : ∀ c ∈ cs, c.isDigit = true) :
    cvvLoop cs = true := by
  induction cs with
  | nil => rfl
  | cons c cs ih =>
    have hc : c.isDigit = true := h c (List.mem_cons_self _ _)
    simp only [cvvLoop, hc, Bool.not_true]
    exact ih fun d hd => h d (List.mem_cons_of_mem _ hd)

theorem isMMYY_shape (expiry : String) (h : isMMYY expiry = true) :
    expiry.length = 5 ∧ expiry.toList.get? 2 = some '/' := by
  obtain ⟨l⟩ := expiry
  match l, h with
  | [a, b, c, d, e], h =>
    simp only [isMMYY, String.toList, Bool.and_eq_true, beq_iff_eq] at h
    obtain ⟨⟨⟨-, hc⟩, -⟩, -⟩ := h
    subst hc
    exact ⟨rfl, rfl⟩

/-- C7: `validateCard` decides the card number on its digit characters only.
When their number is not 16 the card is rejected whatever the expiry and the
CVV; when it is 16 (with any other characters in between), the expiry is two
digits, a slash, two digits and the CVV is 3 or 4 digits, the card is accepted. -/
theorem validateCard_card_number (cardNumber expiry cvv : String) :
    (digitCount cardNumber ≠ 16 → validateCard cardNumber expiry cvv = false) ∧
    (digitCount cardNumber = 16 → isMMYY expiry = true → (cvv.length = 3 ∨ cvv.length = 4) →
      (∀ c ∈ cvv.toList, c.isDigit = true) → validateCard cardNumber expiry cvv = true) := by
  constructor
  · intro h
    simp [validateCard, cleanCard_length, h]
  · intro h hexp hlen hdig
    obtain ⟨h5, hslash⟩ := isMMYY_shape expiry hexp
    have hcvv : ¬ (cvv.length < 3 ∨ cvv.length > 4) := by omega
    simp only [validateCard, cleanCard_length, h, h5, hslash, hcvv, ne_eq, not_true_eq_false,
      or_self, if_false]
    exact cvvLoop_of_digits _ hdig

/-- Scenarios C and B of the specification: card number `123` is rejected,
`4111 1111 1111 1111` with expiry `12/26` and CVV `123` is accepted. -/
theorem validateCard_card_number_witness :
    validateCard "123" "12/26" "123" = false ∧
    validateCard "4111 1111 1111 1111" "12/26" "123" = true :=
  ⟨(validateCard_card_number "123" "12/26" "123").1 (by decide),
   (validateCard_card_number "4111 1111 1111 1111" "12/26" "123").2 (by decide) (by decide)
     (by decide) (by decide)⟩

/-! ## Authorization of card and mobile payments -/

theorem alphanum_getD (k : Nat) (hk : k < 36) :
    ((alphanum.getD k (Char.ofNat 0)).isDigit || (alphanum.getD k (Char.ofNat 0)).isUpper)
      = true := by
  revert k
  decide

theorem alphanum_draw (d : Nat) :
    ((alphanum.getD (d % 36) (Char.ofNat 0)).isDigit ||
      (alphanum.getD (d % 36) (Char.ofNat 0)).isUpper) = true :=
  alphanum_getD (d % 36) (Nat.mod_lt d (by decide))

theorem generateAuthorizationCode_code (p : PaymentProcessor) :
    (generateAuthorizationCode p).1 = String.mk ("AUTH-".toList ++
      [alphanum.getD (p.rng 0 % 36) (Char.ofNat 0), alphanum.getD (p.rng 1 % 36) (Char.ofNat 0),
       alphanum.getD (p.rng 2 % 36) (Char.ofNat 0), alphanum.getD (p.rng 3 % 36) (Char.ofNat 0),
       alphanum.getD (p.rng 4 % 36) (Char.ofNat 0), alphanum.getD (p.rng 5 % 36) (Char.ofNat 0)]) :=
  rfl

theorem generateAuthorizationCode_state (p : PaymentProcessor) :
    (generateAuthorizationCode p).2 = { p with rng := fun n => p.rng (n + 6) } :=
  rfl

theorem isAuthCode_mk (c0 c1 c2 c3 c4 c5 : Char)
    (h0 : (c0.isDigit || c0.isUpper) = true) (h1 : (c1.isDigit || c1.isUpper) = true)
    (h2 : (c2.isDigit || c2.isUpper) = true) (h3 : (c3.isDigit || c3.isUpper) = true)
    (h4 : (c4.isDigit || c4.isUpper) = true) (h5 : (c5.isDigit || c5.isUpper) = true) :
    isAuthCode (String.mk ("AUTH-".toList ++ [c0, c1, c2, c3, c4, c5])) = true := by
  simp only [Bool.or_eq_true] at h0 h1 h2 h3 h4 h5
  simp [isAuthCode, String.length, h0, h1, h2, h3, h4, h5]

theorem generateAuthorizationCode_isAuthCode (p : PaymentProcessor) :
    isAuthCode (generateAuthorizationCode p).1 = true := by
  rw [generateAuthorizationCode_code]
  exact isAuthCode_mk _ _ _ _ _ _ (alphanum_draw _) (alphanum_draw _) (alphanum_draw _)
    (alphanum_draw _) (alphanum_draw _) (alphanum_draw _)

/-- The processor once the new record got its id and the approval draw was made. -/
theorem rand_after_id (p : PaymentProcessor) :
    rand { p with nextPaymentId := p.nextPaymentId + 1 }
      = (p.rng 0, { nextPaymentId := p.nextPaymentId + 1, currentPayment := p.currentPayment,
                    rng := fun n => p.rng (n + 1) }) :=
  rfl

theorem processCardPayment_approved (p : PaymentProcessor) (amount : ℚ)
    (cardNumber expiry cvv cardType now : String)
    (hamount : 0 < amount) (hvalid : validateCard cardNumber expiry cvv = true)
    (hd : p.rng 0 % 100 < 90) :
    processCardPayment p amount cardNumber expiry cvv cardType now
      = (true, { nextPaymentId := p.nextPaymentId + 1
                 currentPayment := some
                   ⟨p.nextPaymentId, cardType, amount, now, "Completed",
                    (generateAuthorizationCode (rand { p with
                      nextPaymentId := p.nextPaymentId + 1 }).2).1⟩
                 rng := fun n => p.rng (n + 1 + 6) }) := by
  have h0 : ¬ amount ≤ 0 := not_le.mpr hamount
  simp only [processCardPayment, h0, hvalid, rand_after_id, hd, if_true, if_false, Bool.not_true]
  rfl

theorem processCardPayment_declined (p : PaymentProcessor) (amount : ℚ)
    (cardNumber expiry cvv cardType now : String)
    (hamount : 0 < amount) (hvalid : validateCard cardNumber expiry cvv = true)
    (hd : ¬ p.rng 0 % 100 < 90) :
    processCardPayment p amount cardNumber expiry cvv cardType now
      = (false, { nextPaymentId := p.nextPaymentId + 1
                  currentPayment := some
                    ⟨p.nextPaymentId, cardType, amount, now, "Failed", "DECLINED"⟩
                  rng := fun n => p.rng (n + 1) }) := by
  have h0 : ¬ amount ≤ 0 := not_le.mpr hamount
  simp only [processCardPayment, h0, hvalid, rand_after_id, hd, if_true, if_false, Bool.not_true]
  rfl

theorem isAuthCode_length (code : String) (h : isAuthCode code = true) : code.length = 11 := by
  simp only [isAuthCode, Bool.and_eq_true, beq_iff_eq] at h
  exact h.1.1

/-- C8: for a card request that passes validation (positive amount, card
fields accepted by `validateCard`) and any sequence of draws, the call creates
a new record with the fresh id, the given card type and the input amount. When
the first draw `d` has `d % 100 < 90` the call returns `true`, the record is
`Completed` and its code is `AUTH-` followed by six characters in `0-9A-Z`
(eleven characters in all); otherwise the call returns `false`, the record is
`Failed` and its code is `DECLINED`. -/
theorem processCardPayment_authorization (p : PaymentProcessor) (amount : ℚ)
    (cardNumber expiry cvv cardType now : String)
    (hamount : 0 < amount) (hvalid : validateCard cardNumber expiry cvv = true) :
    ∃ r, (processCardPayment p amount cardNumber expiry cvv cardType now).2.currentPayment = some r ∧
      r.paymentId = p.nextPaymentId ∧
      (processCardPayment p amount cardNumber expiry cvv cardType now).2.nextPaymentId
        = p.nextPaymentId + 1 ∧
      r.paymentMethod = cardType ∧ r.amount = amount ∧
      (p.rng 0 % 100 < 90 →
        (processCardPayment p amount cardNumber expiry cvv cardType now).1 = true ∧
        r.status = "Completed" ∧ isAuthCode r.authorizationCode = true ∧
        r.authorizationCode.length = 11) ∧
      (¬ p.rng 0 % 100 < 90 →
        (processCardPayment p amount cardNumber expiry cvv cardType now).1 = false ∧
        r.status = "Failed" ∧ r.authorizationCode = "DECLINED") := by
  by_cases hd : p.rng 0 % 100 < 90
  · rw [processCardPayment_approved p amount cardNumber expiry cvv cardType now hamount hvalid hd]
    exact ⟨_, rfl, rfl, rfl, rfl, rfl,
      fun _ => ⟨rfl, rfl, generateAuthorizationCode_isAuthCode _,
        isAuthCode_length _ (generateAuthorizationCode_isAuthCode _)⟩,
      fun h => absurd hd h⟩
  · rw [processCardPayment_declined p amount cardNumber expiry cvv cardType now hamount hvalid hd]
    exact ⟨_, rfl, rfl, rfl, rfl, rfl, fun h => absurd h hd, fun _ => ⟨rfl, rfl, rfl⟩⟩

/-- Scenario B of the specification with the generator fixed to approve, and
the same request with the generator fixed to decline. -/
theorem processCardPayment_authorization_witness :
    (processCardPayment freshProcessor 25 "4111 1111 1111 1111" "12/26" "123" "Credit Card"
      "t").1 = true ∧
    (processCardPayment (PaymentProcessor.new fun _ => 95) 25 "4111 1111 1111 1111" "12/26" "123"
      "Credit Card" "t").1 = false := by
  obtain ⟨_, _, _, _, _, _, h, _⟩ := processCardPayment_authorization freshProcessor 25
    "4111 1111 1111 1111" "12/26" "123" "Credit Card" "t" (by norm_num) (by decide)
  obtain ⟨_, _, _, _, _, _, _, h2⟩ := processCardPayment_authorization
    (PaymentProcessor.new fun _ => 95) 25 "4111 1111 1111 1111" "12/26" "123" "Credit Card" "t"
    (by norm_num) (by decide)
  exact ⟨(h (by decide)).1, (h2 (by decide)).1⟩

theorem processMobilePayment_approved (p : PaymentProcessor) (amount : ℚ)
    (mobileProvider now : String) (hamount : 0 < amount) (hd : p.rng 0 % 100 < 95) :
    processMobilePayment p amount mobileProvider now
      = (true, { nextPaymentId := p.nextPaymentId + 1
                 currentPayment := some
                   ⟨p.nextPaymentId, "Mobile (" ++ mobileProvider ++ ")", amount, now, "Completed",
                    (generateAuthorizationCode (rand { p with
                      nextPaymentId := p.nextPaymentId + 1 }).2).1⟩
                 rng := fun n => p.rng (n + 1 + 6) }) := by
  have h0 : ¬ amount ≤ 0 := not_le.mpr hamount
  simp only [processMobilePayment, h0, rand_after_id, hd, if_true, if_false]
  rfl

theorem processMobilePayment_declined (p : PaymentProcessor) (amount : ℚ)
    (mobileProvider now : String) (hamount : 0 < amount) (hd : ¬ p.rng 0 % 100 < 95) :
    processMobilePayment p amount mobileProvider now
      = (false, { nextPaymentId := p.nextPaymentId + 1
                  currentPayment := some
                    ⟨p.nextPaymentId, "Mobile (" ++ mobileProvider ++ ")", amount, now, "Failed",
                     "TIMEOUT"⟩
                  rng := fun n => p.rng (n + 1) }) := by
  have h0 : ¬ amount ≤ 0 := not_le.mpr hamount
  simp only [processMobilePayment, h0, rand_after_id, hd, if_true, if_false]
  rfl

/-- C9: for a mobile request with a positive amount, any provider name and any
sequence of draws, the call creates a new record with the fresh id. When the
first draw `d` has `d % 100 < 95` the call returns `true`, the record is
`Completed` and its code is `AUTH-` followed by six characters in `0-9A-Z`;
otherwise the call returns `false`, the record is `Failed` and its code is
`TIMEOUT`. The returned boolean is `true` exactly when the record is `Completed`. -/
theorem processMobilePayment_authorization (p : PaymentProcessor) (amount : ℚ)
    (mobileProvider now : String) (hamount : 0 < amount) :
    ∃ r, (processMobilePayment p amount mobileProvider now).2.currentPayment = some r ∧
      r.paymentId = p.nextPaymentId ∧
      (processMobilePayment p amount mobileProvider now).2.nextPaymentId = p.nextPaymentId + 1 ∧
      (p.rng 0 % 100 < 95 →
        (processMobilePayment p amount mobileProvider now).1 = true ∧
        r.status = "Completed" ∧ isAuthCode r.authorizationCode = true) ∧
      (¬ p.rng 0 % 100 < 95 →
        (processMobilePayment p amount mobileProvider now).1 = false ∧
        r.status = "Failed" ∧ r.authorizationCode = "TIMEOUT") ∧
      ((processMobilePayment p amount mobileProvider now).1 = true ↔ r.status = "Completed") := by
  by_cases hd : p.rng 0 % 100 < 95
  · rw [processMobilePayment_approved p amount mobileProvider now hamount hd]
    exact ⟨_, rfl, rfl, rfl,
      fun _ => ⟨rfl, rfl, generateAuthorizationCode_isAuthCode _⟩,
      fun h => absurd hd h, fun _ => rfl, fun _ => rfl⟩
  · rw [processMobilePayment_declined p amount mobileProvider now hamount hd]
    refine ⟨_, rfl, rfl, rfl, fun h => absurd h hd, fun _ => ⟨rfl, rfl, rfl⟩, ?_, ?_⟩
    · intro h
      exact absurd h Bool.false_ne_true
    · intro h
      have hs : ("Failed" : String) = "Completed" := h
      exact absurd hs (by decide)

/-- Scenario D of the specification (PayPal, generator fixed to decline) and the
same request with the generator fixed to approve. -/
theorem processMobilePayment_authorization_witness :
    (processMobilePayment (PaymentProcessor.new fun _ => 99) 5 "PayPal" "t").1 = false ∧
    (processMobilePayment freshProcessor 5 "PayPal" "t").1 = true := by
  obtain ⟨_, _, _, _, _, h, _⟩ := processMobilePayment_authorization
    (PaymentProcessor.new fun _ => 99) 5 "PayPal" "t" (by norm_num)
  obtain ⟨_, _, _, _, h2, _, _⟩ := processMobilePayment_authorization freshProcessor 5 "PayPal" "t"
    (by norm_num)
  exact ⟨(h (by decide)).1, (h2 (by decide)).1⟩

/-! ## The ledger and its lookup -/

theorem appendAll_snoc (rs : List PaymentDetails) (r : PaymentDetails) :
    appendAll (rs ++ [r]) = addTransaction (appendAll rs) (some r) := by
  simp [appendAll, List.foldl_append]

theorem set_after_written {α : Type} (l : List α) (k : Nat) (a b : α) :
    (l ++ List.replicate (k + 1) a).set l.length b = (l ++ [b]) ++ List.replicate k a := by
  induction l with
  | nil => simp [List.replicate_succ]
  | cons x l ih => simpa using ih

theorem addTransaction_below (tm : TransactionManager) (r : PaymentDetails)
    (h : tm.dailyCount < tm.dailyCapacity) :
    (addTransaction tm (some r)).transactionHistory = tm.transactionHistory ++ [r] ∧
    (addTransaction tm (some r)).dailyCapacity = tm.dailyCapacity ∧
    (addTransaction tm (some r)).dailyCount = tm.dailyCount + 1 ∧
    (addTransaction tm (some r)).dailyTransactions
      = tm.dailyTransactions.set tm.dailyCount (some r) := by
  simp only [addTransaction, updatePaymentStats, h, if_true]
  exact ⟨trivial, trivial, trivial, trivial⟩

theorem addTransaction_full (tm : TransactionManager) (r : PaymentDetails)
    (h : ¬ tm.dailyCount < tm.dailyCapacity) :
    (addTransaction tm (some r)).transactionHistory = tm.transactionHistory ++ [r] ∧
    (addTransaction tm (some r)).dailyCapacity = tm.dailyCapacity ∧
    (addTransaction tm (some r)).dailyCount = tm.dailyCount ∧
    (addTransaction tm (some r)).dailyTransactions = tm.dailyTransactions := by
  simp only [addTransaction, updatePaymentStats, h, if_false]
  exact ⟨trivial, trivial, trivial, trivial⟩

/-- The storage of the ledger after the records `rs` were appended. -/
theorem appendAll_storage (rs : List PaymentDetails) :
    (appendAll rs).transactionHistory = rs ∧
    (appendAll rs).dailyCapacity = 100 ∧
    (appendAll rs).dailyCount = min rs.length 100 ∧
    (appendAll rs).dailyTransactions
      = (rs.take 100).map some ++ List.replicate (100 - min rs.length 100) none := by
  induction rs using List.reverseRecOn with
  | nil => exact ⟨rfl, rfl, rfl, rfl⟩
  | append_singleton rs r ih =>
    obtain ⟨hh, hcap, hcount, hdaily⟩ := ih
    rw [appendAll_snoc]
    have hlen : (rs ++ [r]).length = rs.length + 1 := by simp
    by_cases hlt : rs.length < 100
    · have hc : (appendAll rs).dailyCount < (appendAll rs).dailyCapacity := by
        rw [hcap, hcount]; omega
      obtain ⟨h1, h2, h3, h4⟩ := addTransaction_below (appendAll rs) r hc
      rw [h1, h2, h3, h4, hh, hcap, hcount, hdaily, hlen]
      refine ⟨rfl, rfl, by omega, ?_⟩
      have hmin : min rs.length 100 = rs.length := by omega
      have htake : List.take 100 rs = rs := List.take_of_length_le (by omega)
      have htake2 : List.take 100 (rs ++ [r]) = rs ++ [r] :=
        List.take_of_length_le (by rw [hlen]; omega)
      have hrep : 100 - rs.length = (100 - (rs.length + 1)) + 1 := by omega
      have hmin2 : min (rs.length + 1) 100 = rs.length + 1 := by omega
      rw [hmin, htake, htake2, hmin2, hrep]
      have hset := set_after_written (rs.map some) (100 - (rs.length + 1)) none (some r)
      rw [List.length_map] at hset
      rw [hset]
      simp
    · have hc : ¬ (appendAll rs).dailyCount < (appendAll rs).dailyCapacity := by
        rw [hcap, hcount]; omega
      obtain ⟨h1, h2, h3, h4⟩ := addTransaction_full (appendAll rs) r hc
      rw [h1, h2, h3, h4, hh, hcap, hcount, hdaily, hlen]
      refine ⟨rfl, rfl, by omega, ?_⟩
      have htake : List.take 100 (rs ++ [r]) = List.take 100 rs :=
        List.take_append_of_le_length (by omega)
      have hmin2 : min (rs.length + 1) 100 = min rs.length 100 := by omega
      rw [htake, hmin2]

theorem findTransactionByIdLoop_written (pre : List (Option PaymentDetails))
    (l : List PaymentDetails) (rest : List (Option PaymentDetails)) (paymentId : Int) :
    findTransactionByIdLoop (pre ++ (l.map some ++ rest)) paymentId l.length pre.length
      = some (l.find? fun r => r.paymentId = paymentId) := by
  induction l generalizing pre with
  | nil => rfl
  | cons x l ih =>
    have hget : (pre ++ ((x :: l).map some ++ rest)).get? pre.length = some (some x) := by
      rw [List.get?_eq_getElem?, List.getElem?_append_right (le_refl _)]
      simp
    simp only [List.length_cons, findTransactionByIdLoop, hget]
    by_cases hx : x.paymentId = paymentId
    · simp [hx]
    · have hstep := ih (pre ++ [some x])
      simp only [List.length_append, List.length_singleton, List.append_assoc,
        List.singleton_append] at hstep
      simp only [hx, if_false, List.map_cons, List.cons_append]
      rw [hstep]
      simp [List.find?, hx]

/-- The lookup scans the first hundred appended records, in insertion order. -/
theorem findTransactionById_appendAll (rs : List PaymentDetails) (paymentId : Int) :
    findTransactionById (appendAll rs) paymentId
      = some ((rs.take 100).find? fun r => r.paymentId = paymentId) := by
  obtain ⟨-, -, hcount, hdaily⟩ := appendAll_storage rs
  have h := findTransactionByIdLoop_written [] (rs.take 100)
    (List.replicate (100 - min rs.length 100) none) paymentId
  simp only [List.nil_append, List.length_nil, List.length_take] at h
  rw [findTransactionById, hcount, hdaily, min_comm rs.length 100]
  rw [min_comm rs.length 100] at h
  exact h

/-- C10, as stated, fails: after the 101 records with the distinct ids
`1001`..`1101` were appended, the lookup of id `1101`, the id of the last
appended record, returns `nullptr`. -/
theorem findTransactionById_misses_late_record_counterexample :
    (hundredAndOneRecords.map (·.paymentId)).Nodup ∧
    (⟨1101, "Cash", 1, "t", "Completed", "CASH"⟩ : PaymentDetails) ∈ hundredAndOneRecords ∧
    findTransactionById (appendAll hundredAndOneRecords) 1101 = some none := by
  refine ⟨?_, ?_, ?_⟩
  · decide
  · decide
  · rw [findTransactionById_appendAll]
    decide

/-- C10, amended: for every id and every sequence of records with pairwise
distinct ids passed to `addTransaction`, `findTransactionById` returns the
appended record carrying that id when it is among the first hundred appended,
and `nullptr` when none of the first hundred carries it; it never reads a
slot that was not written. The lookup is a function of the ledger alone. -/
theorem findTransactionById_first_hundred (rs : List PaymentDetails) (paymentId : Int)
    (hids : (rs.map (·.paymentId)).Nodup) :
    (∀ r ∈ rs.take 100, r.paymentId = paymentId →
      findTransactionById (appendAll rs) paymentId = some (some r)) ∧
    ((∀ r ∈ rs.take 100, r.paymentId ≠ paymentId) →
      findTransactionById (appendAll rs) paymentId = some none) := by
  rw [findTransactionById_appendAll]
  constructor
  · intro r hr hid
    cases hfind : (rs.take 100).find? fun r => r.paymentId = paymentId with
    | none =>
      rw [List.find?_eq_none] at hfind
      exact absurd (by simpa using hid) (hfind r hr)
    | some x =>
      have hx : x.paymentId = paymentId := by simpa using List.find?_some hfind
      have hxmem : x ∈ rs := List.mem_of_mem_take (List.mem_of_find?_eq_some hfind)
      have hxr : x = r :=
        List.inj_on_of_nodup_map hids hxmem (List.mem_of_mem_take hr) (hx.trans hid.symm)
      rw [hxr]
  · intro hnone
    have hfind : ((rs.take 100).find? fun r => r.paymentId = paymentId) = none := by
      rw [List.find?_eq_none]
      intro x hx
      simpa using hnone x hx
    rw [hfind]

/-- Two appended records, ids `1001` and `1002`: `1002` is found, `7` is not. -/
theorem findTransactionById_first_hundred_witness :
    findTransactionById (appendAll [⟨1001, "Cash", 10, "t1", "Completed", "CASH-1001"⟩,
        ⟨1002, "Debit Card", 5, "t2", "Failed", "DECLINED"⟩]) 1002
      = some (some ⟨1002, "Debit Card", 5, "t2", "Failed", "DECLINED"⟩) ∧
    findTransactionById (appendAll [⟨1001, "Cash", 10, "t1", "Completed", "CASH-1001"⟩,
        ⟨1002, "Debit Card", 5, "t2", "Failed", "DECLINED"⟩]) 7 = some none :=
  ⟨(findTransactionById_first_hundred _ 1002 (by decide)).1 _ (by decide) (by decide),
   (findTransactionById_first_hundred _ 7 (by decide)).2 (by decide)⟩

/-! ## The daily report -/

theorem generateDailyReportLoop_written (pre : List (Option PaymentDetails))
    (l : List PaymentDetails) (rest : List (Option PaymentDetails)) (totalRevenue : ℚ)
    (successCount : Nat) :
    generateDailyReportLoop (pre ++ (l.map some ++ rest)) l.length pre.length totalRevenue
        successCount
      = some (totalRevenue + completedRevenue l, successCount + completedCount l) := by
  induction l generalizing pre totalRevenue successCount with
  | nil => simp [generateDailyReportLoop, completedRevenue, completedCount]
  | cons x l ih =>
    have hget : (pre ++ ((x :: l).map some ++ rest)).get? pre.length = some (some x) := by
      rw [List.get?_eq_getElem?, List.getElem?_append_right (le_refl _)]
      simp
    have hstep := fun (rev : ℚ) (cnt : Nat) => ih (pre ++ [some x]) rev cnt
    simp only [List.length_append, List.length_singleton, List.append_assoc,
      List.singleton_append] at hstep
    simp only [List.length_cons, generateDailyReportLoop, hget]
    simp only [List.map_cons, List.cons_append]
    by_cases hx : x.status = "Completed"
    · simp only [hx, if_true]
      rw [hstep]
      simp [completedRevenue, completedCount, hx, add_assoc, add_comm 1]
    · simp only [hx, if_false]
      rw [hstep]
      simp [completedRevenue, completedCount, hx]

/-- The loop of the report runs over the first hundred appended records. -/
theorem generateDailyReportLoop_appendAll (rs : List PaymentDetails) :
    generateDailyReportLoop (appendAll rs).dailyTransactions (appendAll rs).dailyCount 0 0 0
      = some (completedRevenue (rs.take 100), completedCount (rs.take 100)) := by
  obtain ⟨-, -, hcount, hdaily⟩ := appendAll_storage rs
  have h := generateDailyReportLoop_written [] (rs.take 100)
    (List.replicate (100 - min rs.length 100) none) 0 0
  simp only [List.nil_append, List.length_nil, List.length_take, zero_add] at h
  rw [hcount, hdaily, min_comm rs.length 100]
  rw [min_comm rs.length 100] at h
  exact h

theorem generateDailyReport_appendAll (rs : List PaymentDetails) :
    generateDailyReport (appendAll rs) = some
      { totalCount := (appendAll rs).dailyCount
        successCount := completedCount (rs.take 100)
        totalRevenue := completedRevenue (rs.take 100)
        successRate := if (appendAll rs).dailyCount > 0 then
            (completedCount (rs.take 100) : ℚ) * 100 / ((appendAll rs).dailyCount : ℚ)
          else 0 } := by
  rw [generateDailyReport, generateDailyReportLoop_appendAll]

theorem completed_unit_records (l : List PaymentDetails)
    (h : ∀ r ∈ l, r.status = "Completed" ∧ r.amount = 1) :
    completedCount l = l.length ∧ completedRevenue l = l.length := by
  induction l with
  | nil => simp [completedCount, completedRevenue]
  | cons x l ih =>
    obtain ⟨h1, h2⟩ := ih fun r hr => h r (List.mem_cons_of_mem _ hr)
    obtain ⟨hs, ha⟩ := h x (List.mem_cons_self _ _)
    simp only [completedCount, completedRevenue] at h1 h2 ⊢
    constructor
    · simp [hs, h1]
    · simp [hs, ha, h2, add_comm]

/-- C11, as stated, fails: after the 101 `Completed` records of amount `1`
were appended, the daily report has 100 transactions, 100 successful ones and
revenue `100`, not 101 each. -/
theorem generateDailyReport_hundred_and_one_counterexample :
    hundredAndOneRecords.length = 101 ∧
    completedCount hundredAndOneRecords = 101 ∧
    completedRevenue hundredAndOneRecords = 101 ∧
    generateDailyReport (appendAll hundredAndOneRecords) = some ⟨100, 100, 100, 100⟩ := by
  have hunit : ∀ r ∈ hundredAndOneRecords, r.status = "Completed" ∧ r.amount = 1 := by
    intro r hr
    simp only [hundredAndOneRecords, List.mem_map] at hr
    obtain ⟨i, -, rfl⟩ := hr
    exact ⟨rfl, rfl⟩
  have hlen : hundredAndOneRecords.length = 101 := by decide
  have hlen2 : (hundredAndOneRecords.take 100).length = 100 := by
    rw [List.length_take, hlen]; rfl
  have hall := completed_unit_records hundredAndOneRecords hunit
  have hfirst := completed_unit_records (hundredAndOneRecords.take 100)
    fun r hr => hunit r (List.mem_of_mem_take hr)
  rw [hlen] at hall
  rw [hlen2] at hfirst
  refine ⟨hlen, hall.1, ?_, ?_⟩
  · rw [hall.2]; norm_num
  · obtain ⟨-, -, hcount, -⟩ := appendAll_storage hundredAndOneRecords
    rw [hlen] at hcount
    rw [generateDailyReport, generateDailyReportLoop_appendAll, hcount, hfirst.1, hfirst.2]
    norm_num

/-- C11, amended: for every sequence of records passed to `addTransaction` (of
any length `n`, `0` included) the daily report is computed over the first
hundred appended records: `totalCount = min n 100`, `successCount` and
`totalRevenue` are the number and the amount sum of the `Completed` records
among them, and `successRate = successCount * 100 / totalCount`, being `0`
on the empty ledger; so for at most 100 records the figures are `n`, the number
of appended `Completed` records and the sum of their amounts. -/
theorem generateDailyReport_first_hundred (rs : List PaymentDetails) :
    generateDailyReport (appendAll rs) = some
      { totalCount := min rs.length 100
        successCount := completedCount (rs.take 100)
        totalRevenue := completedRevenue (rs.take 100)
        successRate := if rs.length = 0 then 0
          else (completedCount (rs.take 100) : ℚ) * 100 / ((min rs.length 100 : Nat) : ℚ) } ∧
    (rs.length ≤ 100 → generateDailyReport (appendAll rs) = some
      { totalCount := rs.length
        successCount := completedCount rs
        totalRevenue := completedRevenue rs
        successRate := if rs.length = 0 then 0
          else (completedCount rs : ℚ) * 100 / (rs.length : ℚ) }) := by
  obtain ⟨-, -, hcount, -⟩ := appendAll_storage rs
  have hgen : generateDailyReport (appendAll rs) = some
      { totalCount := min rs.length 100
        successCount := completedCount (rs.take 100)
        totalRevenue := completedRevenue (rs.take 100)
        successRate := if rs.length = 0 then 0
          else (completedCount (rs.take 100) : ℚ) * 100 / ((min rs.length 100 : Nat) : ℚ) } := by
    rw [generateDailyReport, generateDailyReportLoop_appendAll, hcount]
    by_cases h0 : rs.length = 0
    · simp [h0]
    · have hm : min rs.length 100 > 0 := by omega
      simp only [hm, h0, if_true, if_false]
  refine ⟨hgen, fun hle => ?_⟩
  have hmin : min rs.length 100 = rs.length := by omega
  have htake : rs.take 100 = rs := List.take_of_length_le hle
  rw [hgen, hmin, htake]

/-- Two appended records, one `Completed` of amount `10` and one `Failed`: two
transactions, one successful, revenue `10`, success rate `50`; and the empty
ledger reports zeros. -/
theorem generateDailyReport_first_hundred_witness :
    generateDailyReport (appendAll [⟨1001, "Cash", 10, "t1", "Completed", "CASH-1001"⟩,
        ⟨1002, "Debit Card", 5, "t2", "Failed", "DECLINED"⟩]) = some ⟨2, 1, 10, 50⟩ ∧
    generateDailyReport (appendAll []) = some ⟨0, 0, 0, 0⟩ := by
  have hne : ¬ ("Failed" : String) = "Completed" := by decide
  constructor
  · rw [(generateDailyReport_first_hundred _).2 (by decide)]
    norm_num [completedCount, completedRevenue, hne]
  · rw [(generateDailyReport_first_hundred []).2 (by decide)]
    norm_num [completedCount, completedRevenue]

/-! ## The storage invariant of the ledger -/

theorem foldl_addTransaction_reduceOption (ts : List (Option PaymentDetails))
    (tm : TransactionManager) :
    ts.foldl addTransaction tm
      = ts.reduceOption.foldl (fun tm r => addTransaction tm (some r)) tm := by
  induction ts generalizing tm with
  | nil => rfl
  | cons t ts ih =>
    cases t with
    | none =>
      rw [List.foldl_cons, List.reduceOption_cons_of_none, ih]
      rfl
    | some r =>
      rw [List.foldl_cons, List.reduceOption_cons_of_some, List.foldl_cons, ih]

theorem addAll_eq_appendAll (ts : List (Option PaymentDetails)) :
    addAll ts = appendAll ts.reduceOption :=
  foldl_addTransaction_reduceOption ts TransactionManager.new

theorem appendAll_slot (rs : List PaymentDetails) (i : Nat) (hi : i < min rs.length 100) :
    ∃ r, (appendAll rs).dailyTransactions.get? i = some (some r) ∧
      (appendAll rs).transactionHistory.get? i = some r := by
  obtain ⟨hh, -, -, hdaily⟩ := appendAll_storage rs
  have hlt : i < rs.length := by omega
  have hlt2 : i < ((rs.take 100).map some).length := by
    rw [List.length_map, List.length_take, min_comm]; exact hi
  refine ⟨rs.get ⟨i, hlt⟩, ?_, ?_⟩
  · rw [hdaily, List.get?_eq_getElem?, List.getElem?_append_left hlt2]
    have h100 : i < 100 := by omega
    simp [List.getElem?_take, h100, List.getElem?_eq_getElem hlt]
  · rw [hh, List.get?_eq_getElem?, List.getElem?_eq_getElem hlt]
    rfl

/-- C12: after any sequence of arguments was passed to `addTransaction`
starting from the constructor's state, `n` of them not null,
`transactionHistory` holds exactly those `n` records in insertion order (a
further record is appended behind the earlier entries, a null argument changes
nothing), `dailyCount = min n 100 ≤ dailyCapacity = 100`, the array has its 100
slots, and every slot `i < dailyCount` was written and holds the record
`transactionHistory[i]`; so the next write index is inside the array whenever
the guard lets the write happen, and `findTransactionById` and
`generateDailyReport` only read written slots inside the array. -/
theorem ledger_storage_invariant (ts : List (Option PaymentDetails)) :
    (addAll ts).transactionHistory = ts.reduceOption ∧
    (addAll ts).dailyCount = min ts.reduceOption.length 100 ∧
    (addAll ts).dailyCount ≤ (addAll ts).dailyCapacity ∧
    (addAll ts).dailyCapacity = 100 ∧
    (addAll ts).dailyTransactions.length = 100 ∧
    (∀ i, i < (addAll ts).dailyCount →
      ∃ r, (addAll ts).dailyTransactions.get? i = some (some r) ∧
        (addAll ts).transactionHistory.get? i = some r) ∧
    addAll (ts ++ [none]) = addAll ts ∧
    (∀ r, (addAll (ts ++ [some r])).transactionHistory = (addAll ts).transactionHistory ++ [r]) ∧
    ((addAll ts).dailyCount < (addAll ts).dailyCapacity →
      (addAll ts).dailyCount < (addAll ts).dailyTransactions.length) ∧
    (∀ paymentId, findTransactionById (addAll ts) paymentId ≠ none) ∧
    generateDailyReport (addAll ts) ≠ none := by
  have hnull : addAll (ts ++ [none]) = addAll ts := by
    simp only [addAll, List.foldl_append, List.foldl_cons, List.foldl_nil]
    rfl
  have hnext : ∀ r, (addAll (ts ++ [some r])).transactionHistory
      = (addAll ts).transactionHistory ++ [r] := by
    intro r
    simp only [addAll, List.foldl_append, List.foldl_cons, List.foldl_nil]
    by_cases hc : (List.foldl addTransaction TransactionManager.new ts).dailyCount
        < (List.foldl addTransaction TransactionManager.new ts).dailyCapacity
    · exact (addTransaction_below _ r hc).1
    · exact (addTransaction_full _ r hc).1
  have hall := addAll_eq_appendAll ts
  rw [hall] at hnull hnext ⊢
  obtain ⟨hh, hcap, hcount, hdaily⟩ := appendAll_storage ts.reduceOption
  have hlen : (appendAll ts.reduceOption).dailyTransactions.length = 100 := by
    rw [hdaily, List.length_append, List.length_map, List.length_take, List.length_replicate]
    omega
  refine ⟨hh, hcount, by rw [hcap, hcount]; omega, hcap, hlen, ?_, hnull, hnext, ?_, ?_, ?_⟩
  · intro i hi
    rw [hcount] at hi
    exact appendAll_slot _ i hi
  · intro hlt
    rw [hlen, hcount]
    rw [hcap, hcount] at hlt
    exact hlt
  · intro paymentId
    rw [findTransactionById_appendAll]
    exact Option.some_ne_none _
  · rw [(generateDailyReport_appendAll ts.reduceOption)]
    exact Option.some_ne_none _

/-- A completed cash record, a null pointer and a failed card record: the
history holds the two records, `dailyCount` is `2`, and slot `1` holds the
second record of the history. -/
theorem ledger_storage_invariant_witness :
    (addAll [some ⟨1001, "Cash", 10, "t1", "Completed", "CASH-1001"⟩, none,
        some ⟨1002, "Debit Card", 5, "t2", "Failed", "DECLINED"⟩]).transactionHistory
      = [⟨1001, "Cash", 10, "t1", "Completed", "CASH-1001"⟩,
         ⟨1002, "Debit Card", 5, "t2", "Failed", "DECLINED"⟩] ∧
    (addAll [some ⟨1001, "Cash", 10, "t1", "Completed", "CASH-1001"⟩, none,
        some ⟨1002, "Debit Card", 5, "t2", "Failed", "DECLINED"⟩]).dailyCount = 2 ∧
    ∃ r, (addAll [some ⟨1001, "Cash", 10, "t1", "Completed", "CASH-1001"⟩, none,
        some ⟨1002, "Debit Card", 5, "t2", "Failed", "DECLINED"⟩]).dailyTransactions.get? 1
          = some (some r) ∧
      (addAll [some ⟨1001, "Cash", 10, "t1", "Completed", "CASH-1001"⟩, none,
        some ⟨1002, "Debit Card", 5, "t2", "Failed", "DECLINED"⟩]).transactionHistory.get? 1
          = some r := by
  have h := ledger_storage_invariant [some ⟨1001, "Cash", 10, "t1", "Completed", "CASH-1001"⟩,
    none, some ⟨1002, "Debit Card", 5, "t2", "Failed", "DECLINED"⟩]
  obtain ⟨h1, h2, -, -, -, h6, -⟩ := h
  exact ⟨h1, h2, h6 1 (by rw [h2]; decide)⟩

end POS
